import Mathlib

/-!
Verification of the fronius-exporter core (package `api` in `api/api.go` and the
collector in `main.go`) against its specification.

Shallow embedding conventions:
- Go `int` / `StatusCode` are modelled as `Int`.
- Go `float64` values carried by the device API are modelled as `ℚ` (exact
  rational arithmetic standing for the IEEE doubles; all values appearing in
  the claims are exactly representable).
- JSON documents are the inductive `Json` below; `encoding/json` struct
  decoding is modelled field-by-field following Go's semantics (unknown keys
  ignored, missing keys keep the zero value, `null` leaves the value
  unchanged, type mismatches fail).
- The HTTP transport is a parameter `Transport : URL → Except String HTTPResponse`;
  a `.error` result stands for a Go transport error from `Client.Do`.
- Go methods on `*Fronius` are modelled as functions returning their result
  paired with the (possibly updated) receiver, so that frame properties about
  the receiver are statable.
-/

deriving instance DecidableEq for Except

namespace FroniusExporter

/-- JSON values, modelling Go `encoding/json` document trees.
Numbers are rationals (Go decodes into `float64`). Objects keep the textual
key order of the document. -/
inductive Json where
  | null : Json
  | bool (b : Bool) : Json
  | num (q : ℚ) : Json
  | str (s : String) : Json
  | arr (elems : List Json) : Json
  | obj (fields : List (String × Json)) : Json

/-! ### Status decoder (`api/api.go`, `StatusCode` constants, `StatusCodes`,
`StatusCode.String`) -/

/-- Constant `StatusCodeStartup` from `api/api.go`. -/
def StatusCodeStartup : String := "Startup"

/-- Constant `StatusCodeRunning` from `api/api.go`. -/
def StatusCodeRunning : String := "Running"

/-- Constant `StatusCodeStandby` from `api/api.go`. -/
def StatusCodeStandby : String := "Standby"

/-- Constant `StatusCodeBootloading` from `api/api.go`. -/
def StatusCodeBootloading : String := "Bootloading"

/-- Constant `StatusCodeError` from `api/api.go`. -/
def StatusCodeError : String := "Error"

/-- Constant `StatusCodeIdle` from `api/api.go`. -/
def StatusCodeIdle : String := "Idle"

/-- Constant `StatusCodeReady` from `api/api.go`. -/
def StatusCodeReady : String := "Ready"

/-- Constant `StatusCodeSleeping` from `api/api.go`. -/
def StatusCodeSleeping : String := "Sleeping"

/-- Constant `StatusCodeUnknown` from `api/api.go`. -/
def StatusCodeUnknown : String := "Unknown"

/-- Constant `StatusCodeInvalid` from `api/api.go`. -/
def StatusCodeInvalid : String := "INVALID"

/-- Source `StatusCodes()` from `api/api.go`: the fixed ordered enumeration of all
status names. -/
def StatusCodes : List String :=
  [StatusCodeStartup, StatusCodeRunning, StatusCodeStandby, StatusCodeBootloading,
   StatusCodeError, StatusCodeIdle, StatusCodeReady, StatusCodeSleeping,
   StatusCodeUnknown, StatusCodeInvalid]

/-- Source `StatusCode.String` from `api/api.go`: decode a raw numeric status code to
a status name.  Go's `StatusCode` is an `int`, modelled as `Int`. -/
def StatusCode.toName (i : Int) : String :=
  if 0 ≤ i ∧ i < 7 then StatusCodeStartup
  else if i = 7 then StatusCodeRunning
  else if i = 8 then StatusCodeStandby
  else if i = 9 then StatusCodeBootloading
  else if i = 10 then StatusCodeError
  else if i = 11 then StatusCodeIdle
  else if i = 12 then StatusCodeReady
  else if i = 13 then StatusCodeSleeping
  else if i = 255 then StatusCodeUnknown
  else StatusCodeInvalid

/-! ### Stdlib helpers used by the source -/

/-- Model of Go `strings.ToLower` (from `main.go`'s status label construction);
maps every character to lower case.  Lean's `Char.toLower` covers the ASCII
range, which includes every status name the source feeds to it. -/
def stringsToLower (s : String) : String :=
  String.mk (s.data.map Char.toLower)

/-- One step of HTML entity unescaping over a character list: model of Go
`html.UnescapeString` (stdlib, called by `GetInverterInfo` in `api/api.go`),
restricted to the five predefined XML entities (with `amp` also in its
legacy semicolon-free form).  Go's table covers all HTML5 named and numeric
references; the additional entities are orthogonal to the claims, which only
exercise `&amp;`. -/
def unescapeChars : List Char → List Char
  | [] => []
  | '&' :: 'a' :: 'm' :: 'p' :: ';' :: rest => '&' :: unescapeChars rest
  | '&' :: 'a' :: 'm' :: 'p' :: rest => '&' :: unescapeChars rest
  | '&' :: 'l' :: 't' :: ';' :: rest => '<' :: unescapeChars rest
  | '&' :: 'g' :: 't' :: ';' :: rest => '>' :: unescapeChars rest
  | '&' :: 'q' :: 'u' :: 'o' :: 't' :: ';' :: rest => '"' :: unescapeChars rest
  | '&' :: 'a' :: 'p' :: 'o' :: 's' :: ';' :: rest => Char.ofNat 39 :: unescapeChars rest
  | c :: rest => c :: unescapeChars rest

/-- Model of Go `html.UnescapeString` (see `unescapeChars`). -/
def htmlUnescapeString (s : String) : String :=
  String.mk (unescapeChars s.data)

/-- Split a character list at every `/` (helper for `filepathJoin`). -/
def splitSlash : List Char → List (List Char)
  | [] => [[]]
  | '/' :: rest => [] :: splitSlash rest
  | c :: rest =>
    match splitSlash rest with
    | [] => [[c]]
    | seg :: segs => (c :: seg) :: segs

/-- Model of Go `path/filepath.Join` on two elements for slash-separated
paths: elements are joined with `/` and the result is cleaned (empty and `.`
segments dropped, trailing slash removed, leading slash preserved).  The
source only joins literal relative sub-paths free of `..`, on which this
agrees with Go. -/
def filepathJoin (a b : String) : String :=
  let parts := (splitSlash a.data ++ splitSlash b.data).filter
    (fun x => !(x.isEmpty) && !(x == ['.']))
  let lead : String :=
    match a.data with
    | '/' :: _ => "/"
    | _ => ""
  lead ++ String.intercalate "/" (parts.map (fun cs => String.mk cs))

/-- Lexicographic less-or-equal on character lists: the order Go uses when
comparing strings (byte-wise; on the ASCII device keys and query keys of
this program, bytes and code points coincide). -/
def charListLe : List Char → List Char → Bool
  | [], _ => true
  | _ :: _, [] => false
  | a :: as, b :: bs => if a < b then true else if b < a then false else charListLe as bs

/-- Go string `<=` comparison (see `charListLe`). -/
def stringLeB (a b : String) : Bool := charListLe a.data b.data

lemma charListLe_refl : ∀ as, charListLe as as = true := by
  intro as
  induction as with
  | nil => rfl
  | cons a as ih => simp [charListLe, ih]

lemma charListLe_total : ∀ as bs, charListLe as bs = true ∨ charListLe bs as = true := by
  intro as
  induction as with
  | nil => intro bs; left; rfl
  | cons a as ih =>
    intro bs
    cases bs with
    | nil => right; rfl
    | cons b bs =>
      by_cases hab : a < b
      · left; simp [charListLe, hab]
      · by_cases hba : b < a
        · right; simp [charListLe, hba]
        · have hba' : ¬ b < a := hba
          have heq : a = b := le_antisymm (not_lt.mp hba) (not_lt.mp hab)
          subst heq
          rcases ih bs with h | h
          · left; simp [charListLe, hab, h]
          · right; simp [charListLe, hab, h]

lemma charListLe_trans : ∀ as bs cs, charListLe as bs = true → charListLe bs cs = true →
    charListLe as cs = true := by
  intro as
  induction as with
  | nil => intro bs cs _ _; rfl
  | cons a as ih =>
    intro bs cs h1 h2
    cases bs with
    | nil => simp [charListLe] at h1
    | cons b bs =>
      cases cs with
      | nil => simp [charListLe] at h2
      | cons c cs =>
        simp only [charListLe] at h1 h2 ⊢
        by_cases hab : a < b
        · by_cases hbc : b < c
          · simp [lt_trans hab hbc]
          · by_cases hbc' : c < b
            · simp [hbc'] at h2
              exact absurd h2 hbc
            · have : b = c := le_antisymm (not_lt.mp hbc') (not_lt.mp hbc)
              subst this
              simp [hab]
        · by_cases hba : b < a
          · simp [hab, hba] at h1
          · have heq : a = b := le_antisymm (not_lt.mp hba) (not_lt.mp hab)
            subst heq
            by_cases hac : a < c
            · simp [hac]
            · by_cases hca : c < a
              · simp [hac, hca] at h2
              · have heq2 : a = c := le_antisymm (not_lt.mp hca) (not_lt.mp hac)
                subst heq2
                simp [hac] at h1 h2 ⊢
                exact ih _ _ h1 h2

lemma charListLe_antisymm : ∀ as bs, charListLe as bs = true → charListLe bs as = true →
    as = bs := by
  intro as
  induction as with
  | nil =>
    intro bs _ h2
    cases bs with
    | nil => rfl
    | cons b bs => simp [charListLe] at h2
  | cons a as ih =>
    intro bs h1 h2
    cases bs with
    | nil => simp [charListLe] at h1
    | cons b bs =>
      simp only [charListLe] at h1 h2
      by_cases hab : a < b
      · simp [hab, lt_asymm hab] at h2
      · by_cases hba : b < a
        · simp [hab, hba] at h1
        · have heq : a = b := le_antisymm (not_lt.mp hba) (not_lt.mp hab)
          subst heq
          simp [hab] at h1 h2
          rw [ih bs h1 h2]

/-- Insert a key/value pair into a key-sorted list (helper for
`urlValuesEncode`). -/
def insertPairByKey (p : String × String) : List (String × String) → List (String × String)
  | [] => [p]
  | q :: rest => if stringLeB p.1 q.1 then p :: q :: rest else q :: insertPairByKey p rest

/-- Sort key/value pairs by key (helper for `urlValuesEncode`). -/
def sortPairsByKey : List (String × String) → List (String × String)
  | [] => []
  | p :: rest => insertPairByKey p (sortPairsByKey rest)

/-- Model of Go `url.Values.Encode` for single-valued keys: keys sorted
ascending, joined as `k=v` with `&`.  Percent-escaping is the identity on the
query-safe literals this client uses (`DeviceClass`, `Scope`,
`DataCollection`, `DeviceId` and their alphanumeric values). -/
def urlValuesEncode (kvs : List (String × String)) : String :=
  String.intercalate "&" ((sortPairsByKey kvs).map (fun p => p.1 ++ "=" ++ p.2))

/-! ### Response envelope (`api/api.go`, `Msg`, `Msg.Error`) -/

/-- The `Status` part of `Msg.Head` in `api/api.go`. -/
structure MsgStatus where
  code : Int
  reason : String
  userMessage : String

/-- Source `Msg.Head` from `api/api.go`.  `RequestArguments` is an empty struct and
`Timestamp` is never read by the program; both are omitted. -/
structure MsgHead where
  status : MsgStatus

/-- Source `Msg.Body` from `api/api.go`: the raw, not yet interpreted `Data`
payload (`json.RawMessage`, modelled as the parsed `Json` document). -/
structure MsgBody where
  data : Json

/-- The response envelope `Msg` from `api/api.go`. -/
structure Msg where
  body : MsgBody
  head : MsgHead

/-- The error taxonomy of the client, as produced at the return sites of
`api/api.go`: transport failures, non-200 HTTP statuses, malformed envelope
JSON, device-reported non-zero status (carrying code, user message and
reason, as formatted by `Msg.Error`), and payload-shape decode failures. -/
inductive FroniusError where
  | network (msg : String)
  | httpStatus (status : String)
  | jsonParse (msg : String)
  | protocol (code : Int) (userMessage reason : String)
  | decode (msg : String)
deriving DecidableEq, Repr

/-- Source `Msg.Error` from `api/api.go`: `nil` (= `none`) exactly when
`Head.Status.Code == 0`, otherwise an error carrying the code, the user
message and the reason. -/
def Msg.error (m : Msg) : Option FroniusError :=
  if m.head.status.code = 0 then none
  else some (.protocol m.head.status.code m.head.status.userMessage m.head.status.reason)

/-! ### Domain records (`api/api.go`) -/

/-- Source `InverterInfo` from `api/api.go`.  The JSON tag of `Name` is `-`: it is
never populated from the document, only from the mapping key.  Go's `Show`
field is spelled `show_` (`show` is reserved in Lean). -/
structure InverterInfo where
  name : String
  customName : String
  dt : Int
  errorCode : Int
  pvPower : Int
  show_ : Int
  statusCode : Int
  uniqueID : String
deriving DecidableEq, Repr

/-- The zero value of `InverterInfo`, as produced by Go before `json.Unmarshal`
fills the fields. -/
def InverterInfo.zero : InverterInfo :=
  ⟨"", "", 0, 0, 0, 0, 0, ""⟩

/-- Source `DataValue` from `api/api.go`: a measurement with unit. -/
structure DataValue where
  unit : String
  value : ℚ
deriving DecidableEq, Repr

/-- The zero value of `DataValue`. -/
def DataValue.zero : DataValue := ⟨"", 0⟩

/-- Source `DeviceStatus` from `api/api.go`. -/
structure DeviceStatus where
  errorCode : Int
  ledColor : Int
  ledState : Int
  mgmtTimerRemainingTime : Int
  stateToReset : Bool
  statusCode : Int
deriving DecidableEq, Repr

/-- The zero value of `DeviceStatus`. -/
def DeviceStatus.zero : DeviceStatus := ⟨0, 0, 0, 0, false, 0⟩

/-- Source `InverterCommonData` from `api/api.go`. -/
structure InverterCommonData where
  dayEnergy : DataValue
  deviceStatus : DeviceStatus
  fac : DataValue
  iac : DataValue
  idc : DataValue
  pac : DataValue
  totalEnergy : DataValue
  uac : DataValue
  udc : DataValue
  yearEnergy : DataValue
deriving DecidableEq, Repr

/-- The zero value of `InverterCommonData`. -/
def InverterCommonData.zero : InverterCommonData :=
  ⟨.zero, .zero, .zero, .zero, .zero, .zero, .zero, .zero, .zero, .zero⟩

/-- Source `InverterThreePhaseData` from `api/api.go`. -/
structure InverterThreePhaseData where
  iacL1 : DataValue
  iacL2 : DataValue
  iacL3 : DataValue
  uacL1 : DataValue
  uacL2 : DataValue
  uacL3 : DataValue
deriving DecidableEq, Repr

/-- The zero value of `InverterThreePhaseData`. -/
def InverterThreePhaseData.zero : InverterThreePhaseData :=
  ⟨.zero, .zero, .zero, .zero, .zero, .zero⟩

/-! ### `encoding/json` struct decoding, modelled per Go's semantics: the
decoder walks the document object's fields in order, ignores unknown keys,
leaves missing or `null` fields at their zero value, and fails on a type
mismatch (Go reports the first such error; decoding after it is discarded
with the error, so aborting at the first error yields the same
success/failure boundary and the same first error). -/

/-- Decode one JSON value into a Go `string` field, given the current field
value (Go leaves the value unchanged on `null`). -/
def decodeStringField (cur : String) : Json → Except String String
  | .str s => .ok s
  | .null => .ok cur
  | _ => .error "cannot unmarshal into field of type string"

/-- Decode one JSON value into a Go `int` field.  Go rejects non-integral
numbers. -/
def decodeIntField (cur : Int) : Json → Except String Int
  | .num q => if q.den = 1 then .ok q.num else .error "cannot unmarshal number into field of type int"
  | .null => .ok cur
  | _ => .error "cannot unmarshal into field of type int"

/-- Decode one JSON value into a Go `float64` field. -/
def decodeFloatField (cur : ℚ) : Json → Except String ℚ
  | .num q => .ok q
  | .null => .ok cur
  | _ => .error "cannot unmarshal into field of type float64"

/-- Decode one JSON value into a Go `bool` field. -/
def decodeBoolField (cur : Bool) : Json → Except String Bool
  | .bool b => .ok b
  | .null => .ok cur
  | _ => .error "cannot unmarshal into field of type bool"

/-- Unmarshal a JSON value into `DataValue` (fields `Unit`, `Value`). -/
def decodeDataValue (cur : DataValue) : Json → Except String DataValue
  | .obj fields =>
    fields.foldlM (fun acc kv =>
      if kv.1 = "Unit" then do
        let u ← decodeStringField acc.unit kv.2
        pure { acc with unit := u }
      else if kv.1 = "Value" then do
        let v ← decodeFloatField acc.value kv.2
        pure { acc with value := v }
      else pure acc) cur
  | .null => .ok cur
  | _ => .error "cannot unmarshal into DataValue"

/-- Unmarshal a JSON value into `DeviceStatus`. -/
def decodeDeviceStatus (cur : DeviceStatus) : Json → Except String DeviceStatus
  | .obj fields =>
    fields.foldlM (fun acc kv =>
      if kv.1 = "ErrorCode" then do
        let v ← decodeIntField acc.errorCode kv.2
        pure { acc with errorCode := v }
      else if kv.1 = "LEDColor" then do
        let v ← decodeIntField acc.ledColor kv.2
        pure { acc with ledColor := v }
      else if kv.1 = "LEDState" then do
        let v ← decodeIntField acc.ledState kv.2
        pure { acc with ledState := v }
      else if kv.1 = "MgmtTimerRemainingTime" then do
        let v ← decodeIntField acc.mgmtTimerRemainingTime kv.2
        pure { acc with mgmtTimerRemainingTime := v }
      else if kv.1 = "StateToReset" then do
        let v ← decodeBoolField acc.stateToReset kv.2
        pure { acc with stateToReset := v }
      else if kv.1 = "StatusCode" then do
        let v ← decodeIntField acc.statusCode kv.2
        pure { acc with statusCode := v }
      else pure acc) cur
  | .null => .ok cur
  | _ => .error "cannot unmarshal into DeviceStatus"

/-- Unmarshal a JSON value into `InverterCommonData` (the `json.Unmarshal`
call in `GetInverterRealtimeCommonData`). -/
def decodeInverterCommonData (j : Json) : Except String InverterCommonData :=
  match j with
  | .obj fields =>
    fields.foldlM (fun acc kv =>
      if kv.1 = "DAY_ENERGY" then do
        let v ← decodeDataValue acc.dayEnergy kv.2
        pure { acc with dayEnergy := v }
      else if kv.1 = "DeviceStatus" then do
        let v ← decodeDeviceStatus acc.deviceStatus kv.2
        pure { acc with deviceStatus := v }
      else if kv.1 = "FAC" then do
        let v ← decodeDataValue acc.fac kv.2
        pure { acc with fac := v }
      else if kv.1 = "IAC" then do
        let v ← decodeDataValue acc.iac kv.2
        pure { acc with iac := v }
      else if kv.1 = "IDC" then do
        let v ← decodeDataValue acc.idc kv.2
        pure { acc with idc := v }
      else if kv.1 = "PAC" then do
        let v ← decodeDataValue acc.pac kv.2
        pure { acc with pac := v }
      else if kv.1 = "TOTAL_ENERGY" then do
        let v ← decodeDataValue acc.totalEnergy kv.2
        pure { acc with totalEnergy := v }
      else if kv.1 = "UAC" then do
        let v ← decodeDataValue acc.uac kv.2
        pure { acc with uac := v }
      else if kv.1 = "UDC" then do
        let v ← decodeDataValue acc.udc kv.2
        pure { acc with udc := v }
      else if kv.1 = "YEAR_ENERGY" then do
        let v ← decodeDataValue acc.yearEnergy kv.2
        pure { acc with yearEnergy := v }
      else pure acc) InverterCommonData.zero
  | .null => .ok InverterCommonData.zero
  | _ => .error "cannot unmarshal into InverterCommonData"

/-- Unmarshal a JSON value into `InverterThreePhaseData` (the
`json.Unmarshal` call in `GetInverterRealtimeThreePhaseData`). -/
def decodeInverterThreePhaseData (j : Json) : Except String InverterThreePhaseData :=
  match j with
  | .obj fields =>
    fields.foldlM (fun acc kv =>
      if kv.1 = "IAC_L1" then do
        let v ← decodeDataValue acc.iacL1 kv.2
        pure { acc with iacL1 := v }
      else if kv.1 = "IAC_L2" then do
        let v ← decodeDataValue acc.iacL2 kv.2
        pure { acc with iacL2 := v }
      else if kv.1 = "IAC_L3" then do
        let v ← decodeDataValue acc.iacL3 kv.2
        pure { acc with iacL3 := v }
      else if kv.1 = "UAC_L1" then do
        let v ← decodeDataValue acc.uacL1 kv.2
        pure { acc with uacL1 := v }
      else if kv.1 = "UAC_L2" then do
        let v ← decodeDataValue acc.uacL2 kv.2
        pure { acc with uacL2 := v }
      else if kv.1 = "UAC_L3" then do
        let v ← decodeDataValue acc.uacL3 kv.2
        pure { acc with uacL3 := v }
      else pure acc) InverterThreePhaseData.zero
  | .null => .ok InverterThreePhaseData.zero
  | _ => .error "cannot unmarshal into InverterThreePhaseData"

/-- Unmarshal a JSON value into one `InverterInfo` record (`Name` has JSON
tag `-` and is never populated from the document). -/
def decodeInverterInfo (j : Json) : Except String InverterInfo :=
  match j with
  | .obj fields =>
    fields.foldlM (fun acc kv =>
      if kv.1 = "CustomName" then do
        let v ← decodeStringField acc.customName kv.2
        pure { acc with customName := v }
      else if kv.1 = "DT" then do
        let v ← decodeIntField acc.dt kv.2
        pure { acc with dt := v }
      else if kv.1 = "ErrorCode" then do
        let v ← decodeIntField acc.errorCode kv.2
        pure { acc with errorCode := v }
      else if kv.1 = "PVPower" then do
        let v ← decodeIntField acc.pvPower kv.2
        pure { acc with pvPower := v }
      else if kv.1 = "Show" then do
        let v ← decodeIntField acc.show_ kv.2
        pure { acc with show_ := v }
      else if kv.1 = "StatusCode" then do
        let v ← decodeIntField acc.statusCode kv.2
        pure { acc with statusCode := v }
      else if kv.1 = "UniqueID" then do
        let v ← decodeStringField acc.uniqueID kv.2
        pure { acc with uniqueID := v }
      else pure acc) InverterInfo.zero
  | .null => .ok InverterInfo.zero
  | _ => .error "cannot unmarshal into InverterInfo"

/-- Unmarshal a JSON value into `map[string]*InverterInfo` (the inventory
payload of `GetInverterInfo`), keeping the document's key order as the
mapping's iteration order.  The source's keys are distinct device keys. -/
def decodeInverterMap (j : Json) : Except String (List (String × InverterInfo)) :=
  match j with
  | .obj fields =>
    fields.mapM (fun kv => do
      let inv ← decodeInverterInfo kv.2
      pure (kv.1, inv))
  | .null => .ok []
  | _ => .error "cannot unmarshal into map of InverterInfo"

/-! ### Device API client (`api/api.go`, `Fronius` and its methods) -/

/-- The parts of Go's `url.URL` that the source reads or writes: scheme and
host are parsed once and never touched; `Path` and `RawQuery` are set when
building a request URL. -/
structure URL where
  scheme : String
  host : String
  path : String
  rawQuery : String
deriving DecidableEq, Repr

/-- Source `Fronius` from `api/api.go`.  The `Client *http.Client` field is the
transport; it is modelled as the `Transport` parameter threaded through the
operations rather than stored (it is never reassigned by the source). -/
structure Fronius where
  baseURL : URL
deriving DecidableEq, Repr

/-- Source `NewFronius` from `api/api.go`, after the URL has been parsed: the base
path is extended with the fixed API prefix `solar_api/v1/`. -/
def NewFronius (u : URL) : Fronius :=
  { baseURL := { u with path := filepathJoin u.path "solar_api/v1/" } }

/-- A decoded HTTP response: the numeric status code, the status line
(`resp.Status`), and the body as decoded by `json.NewDecoder(...).Decode(&msg)`
(`.error` when the body is not a well-formed `Msg` document). -/
structure HTTPResponse where
  statusCode : Int
  status : String
  body : Except String Msg

/-- The HTTP transport (`f.Client.Do`): maps the request URL to either a
transport error or a response. -/
def Transport : Type := URL → Except String HTTPResponse

/-- The request URL built by `GetInverterInfo`:
`<base>/GetInverterInfo.cgi?DeviceClass=System`. -/
def inverterInfoURL (f : Fronius) : URL :=
  { f.baseURL with
    path := filepathJoin f.baseURL.path "GetInverterInfo.cgi",
    rawQuery := urlValuesEncode [("DeviceClass", "System")] }

/-- The request URL built by `GetRealtimeInverterRealtimeData`:
`<base>/GetInverterRealtimeData.cgi?...` with `Scope`, `DataCollection`,
`DeviceId` query parameters. -/
def realtimeDataURL (f : Fronius) (scope dataCollection deviceID : String) : URL :=
  { f.baseURL with
    path := filepathJoin f.baseURL.path "GetInverterRealtimeData.cgi",
    rawQuery := urlValuesEncode
      [("Scope", scope), ("DataCollection", dataCollection), ("DeviceId", deviceID)] }

/-- The per-record treatment of the decoded inventory mapping in
`GetInverterInfo`: the mapping key is copied into `Name` and `CustomName`
is HTML-unescaped. -/
def stampInverter (kv : String × InverterInfo) : InverterInfo :=
  { kv.2 with name := kv.1, customName := htmlUnescapeString kv.2.customName }

/-- Ordering used by `GetInverterInfo`'s `sort.Slice` call: ascending by
`Name`, with Go's byte-wise string comparison. -/
def InverterInfo.leName (a b : InverterInfo) : Prop :=
  stringLeB a.name b.name = true

instance : DecidableRel InverterInfo.leName :=
  fun a b => inferInstanceAs (Decidable (stringLeB a.name b.name = true))

instance : IsTotal InverterInfo InverterInfo.leName :=
  ⟨fun a b => charListLe_total a.name.data b.name.data⟩

instance : IsTrans InverterInfo InverterInfo.leName :=
  ⟨fun _ _ _ hab hbc => charListLe_trans _ _ _ hab hbc⟩

/-- The pure tail of `GetInverterInfo` after the inventory mapping is
decoded: copy each key into `Name`, unescape `CustomName`, and sort the
records ascending by `Name` (`sort.Slice` with `Name < Name`; on the
distinct keys of a mapping this determines the order uniquely, and
`insertionSort` by `≤` realises it). -/
def processInverters (m : List (String × InverterInfo)) : List InverterInfo :=
  List.insertionSort InverterInfo.leName (m.map stampInverter)

/-- Shared envelope handling of `GetInverterInfo` and
`GetRealtimeInverterRealtimeData` (`api/api.go`): transport errors pass
through, a non-200 status becomes `unexpected http status`, a malformed body
becomes `error parsing json message`, a non-zero envelope status becomes the
`Msg.Error` protocol error, and otherwise the raw `Data` payload is handed
to the continuation. -/
def handleResponse {α : Type} (r : Except String HTTPResponse)
    (k : Json → Except FroniusError α) : Except FroniusError α :=
  match r with
  | .error e => .error (.network e)
  | .ok resp =>
    if resp.statusCode ≠ 200 then .error (.httpStatus resp.status)
    else match resp.body with
      | .error e => .error (.jsonParse ("error parsing json message: " ++ e))
      | .ok msg =>
        match msg.error with
        | some e => .error e
        | none => k msg.body.data

/-- Source `GetInverterInfo` from `api/api.go`, returning the result together with
the receiver after the call (the source copies `f.baseURL` into a local and
never writes through the receiver). -/
def GetInverterInfo (f : Fronius) (t : Transport) :
    Except FroniusError (List InverterInfo) × Fronius :=
  (handleResponse (t (inverterInfoURL f)) (fun data =>
    match decodeInverterMap data with
    | .error e => .error (.decode e)
    | .ok m => .ok (processInverters m)), f)

/-- Source `GetRealtimeInverterRealtimeData` from `api/api.go`: fetches one
realtime-data document and returns the raw `Data` payload unevaluated. -/
def GetRealtimeInverterRealtimeData (f : Fronius) (t : Transport)
    (scope dataCollection deviceID : String) :
    Except FroniusError Json × Fronius :=
  (handleResponse (t (realtimeDataURL f scope dataCollection deviceID)) .ok, f)

/-- Source `GetInverterRealtimeCommonData` from `api/api.go`: wraps
`GetRealtimeInverterRealtimeData` with scope `Device` and collection
`CommonInverterData`, then unmarshals the payload. -/
def GetInverterRealtimeCommonData (f : Fronius) (t : Transport) (deviceID : String) :
    Except FroniusError InverterCommonData × Fronius :=
  match GetRealtimeInverterRealtimeData f t "Device" "CommonInverterData" deviceID with
  | (.error e, f') => (.error e, f')
  | (.ok data, f') =>
    match decodeInverterCommonData data with
    | .error e => (.error (.decode ("unable to parse inverter common data: " ++ e)), f')
    | .ok cd => (.ok cd, f')

/-- Source `GetInverterRealtimeThreePhaseData` from `api/api.go`: wraps
`GetRealtimeInverterRealtimeData` with scope `Device` and collection
`3PInverterData`, then unmarshals the payload. -/
def GetInverterRealtimeThreePhaseData (f : Fronius) (t : Transport) (deviceID : String) :
    Except FroniusError InverterThreePhaseData × Fronius :=
  match GetRealtimeInverterRealtimeData f t "Device" "3PInverterData" deviceID with
  | (.error e, f') => (.error e, f')
  | (.ok data, f') =>
    match decodeInverterThreePhaseData data with
    | .error e => (.error (.decode ("unable to parse inverter three phase data: " ++ e)), f')
    | .ok d => (.ok d, f')

/-! ### Metrics collector (`main.go`, `collector`) -/

/-- Prometheus metric kinds used by the collector
(`prometheus.GaugeValue` / `prometheus.CounterValue`). -/
inductive MetricKind where
  | gauge : MetricKind
  | counter : MetricKind
deriving DecidableEq, Repr

/-- One metric record as built by `prometheus.NewConstMetric` in `main.go`:
the metric name and label names come from the `prometheus.Desc` created in
`newCollector`, the label values from the call site.  `NewConstMetric` only
fails on a label-arity mismatch, which no call site of the source has, so
emission is modelled as always succeeding. -/
structure Metric where
  name : String
  kind : MetricKind
  value : ℚ
  labels : List (String × String)
deriving DecidableEq, Repr

/-- The `fronius_inverter_info` metric emitted per device by
`collectInverters` (labels `device_id`, `device_type`, `device_name`,
`serial`; `device_type` is `fmt.Sprintf` of the `DT` integer). -/
def inverterInfoMetric (inv : InverterInfo) : Metric :=
  { name := "fronius_inverter_info", kind := .gauge, value := 1,
    labels := [("device_id", inv.name), ("device_type", toString inv.dt),
               ("device_name", inv.customName), ("serial", inv.uniqueID)] }

/-- The body of `collectInverters`' status loop for one device, parametrised
by the device id and the decoded status name: one `fronius_inverter_status`
record per entry of `StatusCodes`, value `1.0` when the decoded name equals
the entry and `0.0` otherwise, with the entry lower-cased as the `status`
label. -/
def statusMetricsOf (deviceID decodedName : String) : List Metric :=
  StatusCodes.map (fun status =>
    { name := "fronius_inverter_status", kind := .gauge,
      value := if decodedName = status then 1 else 0,
      labels := [("device_id", deviceID), ("status", stringsToLower status)] })

/-- The ten status-indicator records `collectInverters` emits for one
device. -/
def inverterStatusMetrics (inv : InverterInfo) : List Metric :=
  statusMetricsOf inv.name (StatusCode.toName inv.statusCode)

/-- Source `collector.collectInverters` from `main.go`: fetch the inventory (on
failure: log, emit nothing, return no ids); for each device emit one info
record and the full status sweep, and collect the device ids. -/
def collectInverters (f : Fronius) (t : Transport) : List Metric × List String :=
  match (GetInverterInfo f t).1 with
  | .error _ => ([], [])
  | .ok inverters =>
    (inverters.flatMap (fun inv => inverterInfoMetric inv :: inverterStatusMetrics inv),
     inverters.map (fun inv => inv.name))

/-- Source `collector.collectCommonInverterData` from `main.go`: on failure log and
emit nothing; otherwise emit the total-energy counter (watt-hours divided by
1000) and the DC-voltage, DC-current and grid-frequency gauges, each
labelled by the device id. -/
def collectCommonInverterData (f : Fronius) (t : Transport) (id : String) : List Metric :=
  match (GetInverterRealtimeCommonData f t id).1 with
  | .error _ => []
  | .ok data =>
    [{ name := "inverter_yield_total", kind := .counter,
       value := data.totalEnergy.value / 1000, labels := [("device_id", id)] },
     { name := "inverter_dc_voltage", kind := .gauge,
       value := data.udc.value, labels := [("device_id", id)] },
     { name := "inverter_dc_current", kind := .gauge,
       value := data.idc.value, labels := [("device_id", id)] },
     { name := "inverter_grid_frequency", kind := .gauge,
       value := data.fac.value, labels := [("device_id", id)] }]

/-- Source `collector.collectThreePhaseInverterData` from `main.go`: on failure log
and emit nothing; otherwise emit the six per-phase AC gauges labelled by the
device id and the phase name. -/
def collectThreePhaseInverterData (f : Fronius) (t : Transport) (id : String) : List Metric :=
  match (GetInverterRealtimeThreePhaseData f t id).1 with
  | .error _ => []
  | .ok data =>
    [("inverter_grid_voltage", data.uacL1, "L1"),
     ("inverter_grid_voltage", data.uacL2, "L2"),
     ("inverter_grid_voltage", data.uacL3, "L3"),
     ("inverter_grid_current", data.iacL1, "L1"),
     ("inverter_grid_current", data.iacL2, "L2"),
     ("inverter_grid_current", data.iacL3, "L3")].map
      (fun x => { name := x.1, kind := .gauge, value := x.2.1.value,
                  labels := [("device_id", id), ("phase", x.2.2)] })

/-- Source `collector.Collect` from `main.go`: the full scrape cycle — inventory
metrics, then, per inventoried device id, the common-data and three-phase
detail metrics. -/
def Collect (f : Fronius) (t : Transport) : List Metric :=
  let inv := collectInverters f t
  inv.1 ++ inv.2.flatMap (fun id =>
    collectCommonInverterData f t id ++ collectThreePhaseInverterData f t id)

/-! ### Concrete test environment: a two-device installation in which device
`1`'s detail calls succeed and device `2`'s fail with a transport error. -/

/-- The configured base address, before `NewFronius` appends the API prefix. -/
def testBaseURL : URL := ⟨"http", "inverter.local", "", ""⟩

/-- The client under test. -/
def testFronius : Fronius := NewFronius testBaseURL

/-- Inventory document for device `1` (display name contains an HTML entity
reference). -/
def inverterDoc1 : Json :=
  .obj [("CustomName", .str "Prim&amp;ry"), ("DT", .num 102),
        ("StatusCode", .num 7), ("UniqueID", .str "SN-1")]

/-- Inventory document for device `2` (fields beyond the defaults omitted). -/
def inverterDoc2 : Json :=
  .obj [("CustomName", .str "Backup"), ("StatusCode", .num 255),
        ("UniqueID", .str "SN-2")]

/-- Successful inventory envelope; the mapping lists key `2` before key `1`. -/
def inventoryMsg : Msg :=
  ⟨⟨.obj [("2", inverterDoc2), ("1", inverterDoc1)]⟩, ⟨⟨0, "", ""⟩⟩⟩

/-- Successful common-data envelope for device `1`
(`TOTAL_ENERGY` = 234611600 Wh). -/
def commonDataMsg : Msg :=
  ⟨⟨.obj [("TOTAL_ENERGY", .obj [("Unit", .str "Wh"), ("Value", .num 234611600)]),
          ("UDC", .obj [("Unit", .str "V"), ("Value", .num 420)]),
          ("IDC", .obj [("Unit", .str "A"), ("Value", .num 5)]),
          ("FAC", .obj [("Unit", .str "Hz"), ("Value", .num 50)])]⟩,
   ⟨⟨0, "", ""⟩⟩⟩

/-- Successful three-phase envelope for device `1`. -/
def threePhaseMsg : Msg :=
  ⟨⟨.obj [("UAC_L1", .obj [("Unit", .str "V"), ("Value", .num 230)]),
          ("UAC_L2", .obj [("Unit", .str "V"), ("Value", .num 231)]),
          ("UAC_L3", .obj [("Unit", .str "V"), ("Value", .num 232)]),
          ("IAC_L1", .obj [("Unit", .str "A"), ("Value", .num 1)]),
          ("IAC_L2", .obj [("Unit", .str "A"), ("Value", .num 2)]),
          ("IAC_L3", .obj [("Unit", .str "A"), ("Value", .num 3)])]⟩,
   ⟨⟨0, "", ""⟩⟩⟩

/-- A 200 response carrying a well-formed envelope. -/
def okJSON (m : Msg) : HTTPResponse := ⟨200, "200 OK", .ok m⟩

/-- Transport for the partial-failure scenario: inventory and device `1`'s
two detail calls succeed, every other request (in particular both of device
`2`'s detail calls) fails with a transport error. -/
def partialFailureTransport : Transport := fun u =>
  if u = inverterInfoURL testFronius then .ok (okJSON inventoryMsg)
  else if u = realtimeDataURL testFronius "Device" "CommonInverterData" "1" then
    .ok (okJSON commonDataMsg)
  else if u = realtimeDataURL testFronius "Device" "3PInverterData" "1" then
    .ok (okJSON threePhaseMsg)
  else .error "connection refused"

/-- Transport on which every request fails. -/
def failingTransport : Transport := fun _ => .error "connection refused"

/-- Transport on which every request returns a payload that is not an
object, so that struct decoding fails. -/
def badPayloadTransport : Transport := fun _ =>
  .ok (okJSON ⟨⟨.str "bogus"⟩, ⟨⟨0, "", ""⟩⟩⟩)

/-- The names of the per-device detail metrics (common data and three-phase
data), as declared in `newCollector`. -/
def detailMetricNames : List String :=
  ["inverter_yield_total", "inverter_dc_voltage", "inverter_dc_current",
   "inverter_grid_frequency", "inverter_grid_voltage", "inverter_grid_current"]

/-! ### Shared lemmas -/

/-- Every decoded status name is one of the ten enumerated names. -/
lemma statusCode_toName_mem (c : Int) : StatusCode.toName c ∈ StatusCodes := by
  unfold StatusCode.toName
  split_ifs <;> simp [StatusCodes, StatusCodeStartup, StatusCodeRunning, StatusCodeStandby,
    StatusCodeBootloading, StatusCodeError, StatusCodeIdle, StatusCodeReady,
    StatusCodeSleeping, StatusCodeUnknown, StatusCodeInvalid]

/-! ### Claims -/

/-- Claim C1: the status decoder is a total pure function; for every integer
code it returns one of the ten enumerated status names, and the decode table
holds exactly at every boundary — 0..6 Startup, 7 Running, 8 Standby,
9 Bootloading, 10 Error, 11 Idle, 12 Ready, 13 Sleeping, 255 Unknown, and
every other integer (negatives and 14..254 and ≥ 256) INVALID. -/
theorem statusDecoder_total_table (c : Int) :
    StatusCode.toName c ∈ StatusCodes ∧
    (0 ≤ c → c < 7 → StatusCode.toName c = "Startup") ∧
    (c = 7 → StatusCode.toName c = "Running") ∧
    (c = 8 → StatusCode.toName c = "Standby") ∧
    (c = 9 → StatusCode.toName c = "Bootloading") ∧
    (c = 10 → StatusCode.toName c = "Error") ∧
    (c = 11 → StatusCode.toName c = "Idle") ∧
    (c = 12 → StatusCode.toName c = "Ready") ∧
    (c = 13 → StatusCode.toName c = "Sleeping") ∧
    (c = 255 → StatusCode.toName c = "Unknown") ∧
    (c < 0 ∨ (14 ≤ c ∧ c ≤ 254) ∨ 256 ≤ c → StatusCode.toName c = "INVALID") := by
  refine ⟨statusCode_toName_mem c, ?_, ?_, ?_, ?_, ?_, ?_, ?_, ?_, ?_, ?_⟩
  · intro h1 h2
    unfold StatusCode.toName
    rw [if_pos ⟨h1, h2⟩]
    rfl
  · intro h; subst h; decide
  · intro h; subst h; decide
  · intro h; subst h; decide
  · intro h; subst h; decide
  · intro h; subst h; decide
  · intro h; subst h; decide
  · intro h; subst h; decide
  · intro h; subst h; decide
  · intro h
    unfold StatusCode.toName
    split_ifs <;> first | rfl | omega

/-- Claim C1 witness: the decoder evaluated at the boundary codes
6, 7, 254, 255, 256 and −1. -/
theorem statusDecoder_total_table_witness :
    StatusCode.toName 6 = "Startup" ∧ StatusCode.toName 7 = "Running" ∧
    StatusCode.toName 254 = "INVALID" ∧ StatusCode.toName 255 = "Unknown" ∧
    StatusCode.toName 256 = "INVALID" ∧ StatusCode.toName (-1) = "INVALID" :=
  ⟨(statusDecoder_total_table 6).2.1 (by decide) (by decide),
   (statusDecoder_total_table 7).2.2.1 rfl,
   (statusDecoder_total_table 254).2.2.2.2.2.2.2.2.2.2 (by omega),
   (statusDecoder_total_table 255).2.2.2.2.2.2.2.2.2.1 rfl,
   (statusDecoder_total_table 256).2.2.2.2.2.2.2.2.2.2 (by omega),
   (statusDecoder_total_table (-1)).2.2.2.2.2.2.2.2.2.2 (by omega)⟩

/-- Claim C2: envelope parsing signals a protocol error iff `Status.Code` is
non-zero; the error carries exactly the numeric code, user message and
reason, and the payload is not interpreted; with `Status.Code = 0` no error
is raised and the raw `Data` payload is returned unevaluated. -/
theorem msg_error_iff_nonzero_code (m : Msg) :
    (m.head.status.code ≠ 0 →
      m.error = some (.protocol m.head.status.code m.head.status.userMessage
        m.head.status.reason)) ∧
    (m.head.status.code = 0 → m.error = none) ∧
    (∀ (f : Fronius) (t : Transport) (scope dc id : String) (resp : HTTPResponse),
      t (realtimeDataURL f scope dc id) = .ok resp → resp.statusCode = 200 →
      resp.body = .ok m →
      (m.head.status.code ≠ 0 →
        (GetRealtimeInverterRealtimeData f t scope dc id).1 =
          .error (.protocol m.head.status.code m.head.status.userMessage
            m.head.status.reason)) ∧
      (m.head.status.code = 0 →
        (GetRealtimeInverterRealtimeData f t scope dc id).1 = .ok m.body.data)) := by
  refine ⟨fun h => by simp [Msg.error, h], fun h => by simp [Msg.error, h],
    fun f t scope dc id resp ht h200 hbody => ⟨fun h => ?_, fun h => ?_⟩⟩ <;>
    simp [GetRealtimeInverterRealtimeData, handleResponse, ht, h200, hbody, Msg.error, h]

/-- Claim C2 witness: a concrete envelope with status code 240 yields the
protocol error, and one with status code 0 yields its raw payload. -/
theorem msg_error_iff_nonzero_code_witness :
    (Msg.mk ⟨.null⟩ ⟨⟨240, "reason text", "user text"⟩⟩).error =
      some (.protocol 240 "user text" "reason text") ∧
    (Msg.mk ⟨.str "payload"⟩ ⟨⟨0, "", ""⟩⟩).error = none :=
  ⟨(msg_error_iff_nonzero_code (Msg.mk ⟨.null⟩ ⟨⟨240, "reason text", "user text"⟩⟩)).1
     (by decide),
   (msg_error_iff_nonzero_code (Msg.mk ⟨.str "payload"⟩ ⟨⟨0, "", ""⟩⟩)).2.1 rfl⟩

/-- Two lists of inverter records that are permutations of each other, both
sorted ascending by name, with pairwise-distinct names, are equal. -/
lemma sorted_perm_eq_of_nodup_names :
    ∀ l₁ l₂ : List InverterInfo, l₁.Perm l₂ →
      l₁.Sorted InverterInfo.leName → l₂.Sorted InverterInfo.leName →
      (l₁.map (fun inv => inv.name)).Nodup → l₁ = l₂ := by
  intro l₁
  induction l₁ with
  | nil => intro l₂ hp _ _ _; exact hp.nil_eq
  | cons a t ih =>
    intro l₂ hp hs₁ hs₂ hnd
    cases l₂ with
    | nil => exact absurd hp.eq_nil (by simp)
    | cons b t₂ =>
      have ha : a ∈ b :: t₂ := hp.mem_iff.mp (List.mem_cons_self a t)
      have hb : b ∈ a :: t := hp.mem_iff.mpr (List.mem_cons_self b t₂)
      have hba : stringLeB b.name a.name = true := by
        rcases List.mem_cons.mp ha with h | h
        · rw [h]; exact charListLe_refl _
        · exact List.rel_of_pairwise_cons hs₂ h
      have hab : stringLeB a.name b.name = true := by
        rcases List.mem_cons.mp hb with h | h
        · rw [h]; exact charListLe_refl _
        · exact List.rel_of_pairwise_cons hs₁ h
      have hnames : a.name = b.name :=
        congrArg String.mk (charListLe_antisymm a.name.data b.name.data hab hba)
      rw [List.map_cons, List.nodup_cons] at hnd
      have hbe : b = a := by
        rcases List.mem_cons.mp hb with h | h
        · exact h
        · exact absurd (hnames ▸ List.mem_map_of_mem (fun inv => inv.name) h) hnd.1
      subst hbe
      have ht : t = t₂ :=
        ih t₂ hp.cons_inv (List.pairwise_cons.mp hs₁).2 (List.pairwise_cons.mp hs₂).2 hnd.2
      rw [ht]

/-- The names of the stamped records are exactly the mapping keys. -/
lemma map_name_stampInverter (m : List (String × InverterInfo)) :
    (m.map stampInverter).map (fun inv => inv.name) = m.map Prod.fst := by
  simp [stampInverter]

/-- Claim C3: `GetInverterInfo` copies each mapping key into the returned
record's `Name` field and returns the records sorted ascending by that key;
for a mapping with pairwise-distinct keys the output is the same for every
iteration order of the source mapping, and the keys `"3", "1", "2"` come out
ordered `1, 2, 3`. -/
theorem getInverterInfo_sorted_by_key (m m₂ : List (String × InverterInfo)) :
    (processInverters m).Sorted InverterInfo.leName ∧
    (processInverters m).Perm (m.map stampInverter) ∧
    (∀ inv ∈ processInverters m, ∃ kv ∈ m, inv = stampInverter kv ∧ inv.name = kv.1) ∧
    (m.Perm m₂ → (m.map Prod.fst).Nodup → processInverters m = processInverters m₂) ∧
    (processInverters
        [("3", InverterInfo.zero), ("1", InverterInfo.zero), ("2", InverterInfo.zero)]
      |>.map (fun inv => inv.name)) = ["1", "2", "3"] := by
  refine ⟨List.sorted_insertionSort _ _, List.perm_insertionSort _ _, ?_, ?_, by decide⟩
  · intro inv hinv
    have : inv ∈ m.map stampInverter :=
      (List.perm_insertionSort _ _).mem_iff.mp hinv
    rcases List.mem_map.mp this with ⟨kv, hkv, hstamp⟩
    exact ⟨kv, hkv, hstamp.symm, by rw [← hstamp]; rfl⟩
  · intro hperm hnodup
    have hp : (processInverters m).Perm (processInverters m₂) :=
      (List.perm_insertionSort _ _).trans
        ((hperm.map stampInverter).trans (List.perm_insertionSort _ _).symm)
    refine sorted_perm_eq_of_nodup_names _ _ hp
      (List.sorted_insertionSort _ _) (List.sorted_insertionSort _ _) ?_
    have hmap : ((processInverters m).map (fun inv => inv.name)).Perm
        ((m.map stampInverter).map (fun inv => inv.name)) :=
      (List.perm_insertionSort _ _).map _
    rw [map_name_stampInverter] at hmap
    exact hmap.nodup_iff.mpr hnodup

/-- Claim C3 witness: determinism applied to the two iteration orders
`3, 1, 2` and `1, 2, 3` of the same mapping, both producing the key-sorted
sequence. -/
theorem getInverterInfo_sorted_by_key_witness :
    processInverters
        [("3", InverterInfo.zero), ("1", InverterInfo.zero), ("2", InverterInfo.zero)] =
      processInverters
        [("1", InverterInfo.zero), ("2", InverterInfo.zero), ("3", InverterInfo.zero)] :=
  (getInverterInfo_sorted_by_key
      [("3", InverterInfo.zero), ("1", InverterInfo.zero), ("2", InverterInfo.zero)]
      [("1", InverterInfo.zero), ("2", InverterInfo.zero), ("3", InverterInfo.zero)]).2.2.2.1
    (by decide) (by decide)

/-- Lower-casing is injective on the ten status names. -/
lemma stringsToLower_inj_on_statusCodes :
    ∀ x ∈ StatusCodes, ∀ y ∈ StatusCodes, stringsToLower x = stringsToLower y → x = y := by
  decide

/-- Claim C4: for every device, regardless of its raw status code, the
collector emits exactly ten status-indicator records — one per entry of the
fixed status enumeration, in that order — of which exactly one has value 1.0
(the one whose `status` label is the lower-cased decoded status) and the
other nine have value 0.0. -/
theorem statusIndicator_one_hot (inv : InverterInfo) :
    (inverterStatusMetrics inv).length = 10 ∧
    (inverterStatusMetrics inv).map (fun mtr => mtr.labels.lookup "status") =
      StatusCodes.map (fun st => some (stringsToLower st)) ∧
    (inverterStatusMetrics inv).countP (fun mtr => mtr.value == 1) = 1 ∧
    (∀ mtr ∈ inverterStatusMetrics inv, mtr.value = 1 ∨ mtr.value = 0) ∧
    (∀ mtr ∈ inverterStatusMetrics inv,
      mtr.value = 1 ↔ mtr.labels.lookup "status" =
        some (stringsToLower (StatusCode.toName inv.statusCode))) := by
  have hs := statusCode_toName_mem inv.statusCode
  refine ⟨rfl, rfl, ?_, ?_, ?_⟩
  · simp only [inverterStatusMetrics, statusMetricsOf]
    rw [List.countP_map]
    have hcomp : ((fun mtr : Metric => mtr.value == 1) ∘ (fun status =>
        ({ name := "fronius_inverter_status", kind := .gauge,
           value := if StatusCode.toName inv.statusCode = status then 1 else 0,
           labels := [("device_id", inv.name), ("status", stringsToLower status)] } : Metric))) =
        (fun st => decide (StatusCode.toName inv.statusCode = st)) := by
      funext st
      by_cases h : StatusCode.toName inv.statusCode = st <;> simp [h]
    rw [hcomp]
    simp only [StatusCodes, StatusCodeStartup, StatusCodeRunning, StatusCodeStandby,
      StatusCodeBootloading, StatusCodeError, StatusCodeIdle, StatusCodeReady,
      StatusCodeSleeping, StatusCodeUnknown, StatusCodeInvalid, List.mem_cons,
      List.not_mem_nil, or_false] at hs
    rcases hs with h | h | h | h | h | h | h | h | h | h <;> rw [h] <;> decide
  · intro mtr hm
    rcases List.mem_map.mp hm with ⟨st, _, rfl⟩
    by_cases h : StatusCode.toName inv.statusCode = st <;> simp [h]
  · intro mtr hm
    rcases List.mem_map.mp hm with ⟨st, hst, rfl⟩
    by_cases h : StatusCode.toName inv.statusCode = st
    · simp [h, List.lookup]
    · simp only [h, if_false]
      constructor
      · intro h10
        exact absurd h10 (by norm_num)
      · intro hlk
        have : stringsToLower st = stringsToLower (StatusCode.toName inv.statusCode) := by
          simpa [List.lookup] using hlk
        exact absurd (stringsToLower_inj_on_statusCodes st hst _ hs this).symm h

/-- Claim C10: every status-indicator record carries the status name
lower-cased as its `status` label value (not the enumeration constant
itself); in particular the catch-all `INVALID` appears as `invalid` and
`Startup` as `startup`. -/
theorem statusLabel_lowercased (inv : InverterInfo) :
    (inverterStatusMetrics inv).map (fun mtr => mtr.labels) =
      StatusCodes.map (fun st => [("device_id", inv.name), ("status", stringsToLower st)]) ∧
    stringsToLower StatusCodeInvalid = "invalid" ∧
    stringsToLower StatusCodeStartup = "startup" ∧
    StatusCodes.map stringsToLower =
      ["startup", "running", "standby", "bootloading", "error", "idle", "ready",
       "sleeping", "unknown", "invalid"] :=
  ⟨rfl, by decide, by decide, by decide⟩

/-- Claim C4 witness: the one-hot clauses applied to a concrete device with
raw status code 7 and its `running` indicator record. -/
theorem statusIndicator_one_hot_witness :
    (Metric.mk "fronius_inverter_status" .gauge 1
        [("device_id", "1"), ("status", "running")]).value = 1 ∨
    (Metric.mk "fronius_inverter_status" .gauge 1
        [("device_id", "1"), ("status", "running")]).value = 0 :=
  (statusIndicator_one_hot ⟨"1", "", 0, 0, 0, 0, 7, ""⟩).2.2.2.1
    (Metric.mk "fronius_inverter_status" .gauge 1
      [("device_id", "1"), ("status", "running")]) (by decide)

/-- Claim C5: collection never raises an error to the sink and isolates
failures — a failed inventory fetch makes `Collect` emit zero metrics for
the cycle, and in the two-device scenario where device `2`'s detail calls
fail while device `1`'s succeed, the output has info and status metrics for
both devices, the full ten detail metrics for device `1`, and no detail
metrics for device `2`. -/
theorem collect_isolates_failures :
    (∀ (f : Fronius) (t : Transport) (e : FroniusError),
      (GetInverterInfo f t).1 = .error e → Collect f t = []) ∧
    (Collect testFronius partialFailureTransport).countP
      (fun mtr => detailMetricNames.contains mtr.name &&
        mtr.labels.contains ("device_id", "2")) = 0 ∧
    (Collect testFronius partialFailureTransport).countP
      (fun mtr => detailMetricNames.contains mtr.name &&
        mtr.labels.contains ("device_id", "1")) = 10 ∧
    (∀ d ∈ (["1", "2"] : List String),
      (Collect testFronius partialFailureTransport).countP
        (fun mtr => mtr.name == "fronius_inverter_info" &&
          mtr.labels.contains ("device_id", d)) = 1 ∧
      (Collect testFronius partialFailureTransport).countP
        (fun mtr => mtr.name == "fronius_inverter_status" &&
          mtr.labels.contains ("device_id", d)) = 10) := by
  refine ⟨?_, by decide, by decide, by decide⟩
  intro f t e h
  simp [Collect, collectInverters, h]

/-- Claim C5 witness: on the all-failing transport the inventory fetch
fails and the scrape emits zero metrics. -/
theorem collect_isolates_failures_witness :
    Collect testFronius failingTransport = [] :=
  collect_isolates_failures.1 testFronius failingTransport
    (.network "connection refused") rfl

/-- Claim C6: `GetInverterRealtimeCommonData` fails with a decode error
wrapping a descriptive message exactly when the received payload does not
unmarshal as common data, and otherwise returns the decoded record. -/
theorem getCommonData_decode_error (f : Fronius) (t : Transport) (id : String) (data : Json)
    (h : (GetRealtimeInverterRealtimeData f t "Device" "CommonInverterData" id).1 = .ok data) :
    (∀ e, decodeInverterCommonData data = .error e →
      (GetInverterRealtimeCommonData f t id).1 =
        .error (.decode ("unable to parse inverter common data: " ++ e))) ∧
    (∀ cd, decodeInverterCommonData data = .ok cd →
      (GetInverterRealtimeCommonData f t id).1 = .ok cd) := by
  have hpair : GetRealtimeInverterRealtimeData f t "Device" "CommonInverterData" id =
      (Except.ok data, f) := Prod.ext h rfl
  refine ⟨fun e he => ?_, fun cd hcd => ?_⟩
  · simp [GetInverterRealtimeCommonData, hpair, he]
  · simp [GetInverterRealtimeCommonData, hpair, hcd]

/-- Claim C6 witness: a payload that is not an object makes
`GetInverterRealtimeCommonData` fail with the wrapped decode error. -/
theorem getCommonData_decode_error_witness :
    (GetInverterRealtimeCommonData testFronius badPayloadTransport "1").1 =
      .error (.decode
        ("unable to parse inverter common data: " ++ "cannot unmarshal into InverterCommonData")) :=
  (getCommonData_decode_error testFronius badPayloadTransport "1" (.str "bogus") rfl).1
    "cannot unmarshal into InverterCommonData" rfl

/-- Claim C7: for every successfully fetched common-data record, the
total-energy metric is a counter (not a gauge) with value `TOTAL_ENERGY`
divided by 1000, labeled by the device key. -/
theorem totalEnergy_counter_kwh (f : Fronius) (t : Transport) (id : String)
    (d : InverterCommonData)
    (h : (GetInverterRealtimeCommonData f t id).1 = .ok d) :
    collectCommonInverterData f t id =
      [⟨"inverter_yield_total", .counter, d.totalEnergy.value / 1000, [("device_id", id)]⟩,
       ⟨"inverter_dc_voltage", .gauge, d.udc.value, [("device_id", id)]⟩,
       ⟨"inverter_dc_current", .gauge, d.idc.value, [("device_id", id)]⟩,
       ⟨"inverter_grid_frequency", .gauge, d.fac.value, [("device_id", id)]⟩] ∧
    (∀ mtr ∈ collectCommonInverterData f t id, mtr.name = "inverter_yield_total" →
      mtr.kind = .counter ∧ mtr.value = d.totalEnergy.value / 1000 ∧
      mtr.labels = [("device_id", id)]) := by
  have hlist : collectCommonInverterData f t id =
      [⟨"inverter_yield_total", .counter, d.totalEnergy.value / 1000, [("device_id", id)]⟩,
       ⟨"inverter_dc_voltage", .gauge, d.udc.value, [("device_id", id)]⟩,
       ⟨"inverter_dc_current", .gauge, d.idc.value, [("device_id", id)]⟩,
       ⟨"inverter_grid_frequency", .gauge, d.fac.value, [("device_id", id)]⟩] := by
    simp [collectCommonInverterData, h]
  refine ⟨hlist, ?_⟩
  rw [hlist]
  intro mtr hm hname
  fin_cases hm
  · exact ⟨rfl, rfl, rfl⟩
  · exact absurd hname (by simp)
  · exact absurd hname (by simp)
  · exact absurd hname (by simp)

/-- Claim C7 witness: device `1`'s common data with
`TOTAL_ENERGY = 234611600` Wh yields the counter value
`234611600 / 1000 = 234611.6`. -/
theorem totalEnergy_counter_kwh_witness :
    collectCommonInverterData testFronius partialFailureTransport "1" =
      [⟨"inverter_yield_total", .counter, (234611600 : ℚ) / 1000, [("device_id", "1")]⟩,
       ⟨"inverter_dc_voltage", .gauge, 420, [("device_id", "1")]⟩,
       ⟨"inverter_dc_current", .gauge, 5, [("device_id", "1")]⟩,
       ⟨"inverter_grid_frequency", .gauge, 50, [("device_id", "1")]⟩] ∧
    (234611600 : ℚ) / 1000 = 234611.6 :=
  ⟨(totalEnergy_counter_kwh testFronius partialFailureTransport "1"
      ⟨.zero, .zero, ⟨"Hz", 50⟩, .zero, ⟨"A", 5⟩, .zero, ⟨"Wh", 234611600⟩, .zero,
       ⟨"V", 420⟩, .zero⟩ (by decide)).1,
   by norm_num⟩

/-- Claim C8: every record returned by `GetInverterInfo` carries the
customer display name with HTML character references unescaped; a
`CustomName` containing the literal `&amp;` comes back containing `&`. -/
theorem customName_unescaped (m : List (String × InverterInfo)) :
    (∀ inv ∈ processInverters m, ∃ kv ∈ m,
      inv.customName = htmlUnescapeString kv.2.customName ∧ inv.name = kv.1) ∧
    htmlUnescapeString "&amp;" = "&" ∧
    htmlUnescapeString "Haus &amp; Hof" = "Haus & Hof" := by
  refine ⟨?_, by decide, by decide⟩
  intro inv hinv
  have hmem : inv ∈ m.map stampInverter := (List.perm_insertionSort _ _).mem_iff.mp hinv
  rcases List.mem_map.mp hmem with ⟨kv, hkv, rfl⟩
  exact ⟨kv, hkv, rfl, rfl⟩

/-- Claim C8 witness: the unescaping clause applied to a concrete one-device
inventory whose display name contains `&amp;`. -/
theorem customName_unescaped_witness :
    ∃ kv ∈ [("1", { InverterInfo.zero with customName := "Haus &amp; Hof" })],
      ({ InverterInfo.zero with name := "1", customName := "Haus & Hof" }
        : InverterInfo).customName = htmlUnescapeString kv.2.customName ∧
      ({ InverterInfo.zero with name := "1", customName := "Haus & Hof" }
        : InverterInfo).name = kv.1 :=
  (customName_unescaped [("1", { InverterInfo.zero with customName := "Haus &amp; Hof" })]).1
    { InverterInfo.zero with name := "1", customName := "Haus & Hof" } (by decide)

/-- Claim C9: the configured endpoint is immutable after construction —
every client operation returns the receiver unchanged, so repeated calls
build their request URLs from the same base. -/
theorem endpoint_immutable (f : Fronius) (t : Transport) (scope dc id devID : String) :
    (GetInverterInfo f t).2 = f ∧
    (GetRealtimeInverterRealtimeData f t scope dc id).2 = f ∧
    (GetInverterRealtimeCommonData f t devID).2 = f ∧
    (GetInverterRealtimeThreePhaseData f t devID).2 = f ∧
    inverterInfoURL (GetInverterInfo f t).2 = inverterInfoURL f ∧
    realtimeDataURL (GetRealtimeInverterRealtimeData f t scope dc id).2 scope dc id =
      realtimeDataURL f scope dc id := by
  refine ⟨rfl, rfl, ?_, ?_, rfl, rfl⟩
  · cases h : (GetRealtimeInverterRealtimeData f t "Device" "CommonInverterData" devID).1 with
    | error e =>
      have hpair : GetRealtimeInverterRealtimeData f t "Device" "CommonInverterData" devID =
          (Except.error e, f) := Prod.ext h rfl
      simp [GetInverterRealtimeCommonData, hpair]
    | ok data =>
      have hpair : GetRealtimeInverterRealtimeData f t "Device" "CommonInverterData" devID =
          (Except.ok data, f) := Prod.ext h rfl
      cases hd : decodeInverterCommonData data with
      | error e => simp [GetInverterRealtimeCommonData, hpair, hd]
      | ok cd => simp [GetInverterRealtimeCommonData, hpair, hd]
  · cases h : (GetRealtimeInverterRealtimeData f t "Device" "3PInverterData" devID).1 with
    | error e =>
      have hpair : GetRealtimeInverterRealtimeData f t "Device" "3PInverterData" devID =
          (Except.error e, f) := Prod.ext h rfl
      simp [GetInverterRealtimeThreePhaseData, hpair]
    | ok data =>
      have hpair : GetRealtimeInverterRealtimeData f t "Device" "3PInverterData" devID =
          (Except.ok data, f) := Prod.ext h rfl
      cases hd : decodeInverterThreePhaseData data with
      | error e => simp [GetInverterRealtimeThreePhaseData, hpair, hd]
      | ok d => simp [GetInverterRealtimeThreePhaseData, hpair, hd]

end FroniusExporter
